import Mathlib

/-!
Shallow embedding of the e-Insurance-App backend (FastAPI + SQLAlchemy) for
spec verification.  Each definition mirrors one piece of the Python source:

* `src/user_services/models.py`  — row types, `to_dict` serializers
* `src/user_services/utils.py`   — `create_token`, `create_tokens`, `verify_user`
* `src/user_services/customer_routes.py` — premium calculation and payment handlers
* `src/user_services/policies_routes.py` — `get_policies`, `purchase_policy`
* `src/user_services/admin_routes.py`    — `calculate_commission`
* `src/user_services/login_routes.py`    — `login_user`

Machine integers in the source are ordinary Python/SQL integers (unbounded),
so identifiers are `Nat`/`Int`; monetary arithmetic uses `ℚ` for the exact
value of the float expressions; fallible handlers return
`Except HttpError α`, mirroring `raise HTTPException(status_code, detail)`.
-/

deriving instance DecidableEq for Except

namespace EInsurance

/-- A calendar date as stored in the `Date` columns of `models.py`. -/
structure SimpleDate where
  year : Int
  month : Nat
  day : Nat
deriving DecidableEq

/-- `models.py` `class Admin` — columns `admin_id, email, password, username,
full_name, created_at`. -/
structure Admin where
  admin_id : Nat
  email : String
  password : String
  username : String
  full_name : String
  created_at : Nat
deriving DecidableEq

/-- `models.py` `class Employee`. -/
structure Employee where
  employee_id : Nat
  email : String
  password : String
  username : String
  full_name : String
  created_at : Nat
deriving DecidableEq

/-- `models.py` `class InsuranceAgent`. -/
structure InsuranceAgent where
  agent_id : Nat
  email : String
  password : String
  username : String
  full_name : String
  created_at : Nat
deriving DecidableEq

/-- `models.py` `class Customer` — `date_of_birth` is checked for absence by
the handlers (`if not customer.date_of_birth`), so it is an `Option`;
`agent_id` is a nullable foreign key. -/
structure Customer where
  customer_id : Nat
  email : String
  password : String
  full_name : String
  username : String
  date_of_birth : Option SimpleDate
  agent_id : Option Nat
  created_at : Nat
deriving DecidableEq

/-- `models.py` `class Policy` — columns `policy_id, scheme_id,
policy_details, premium, date_issued, maturity_period, policy_lapse_date,
created_at`.  Note: the model defines NO `customer_id` column; several
handlers nevertheless access `Policy.customer_id` / `policy.customer_id`,
which raises `AttributeError` at run time. -/
structure Policy where
  policy_id : Nat
  scheme_id : Nat
  policy_details : String
  premium : Int
  date_issued : SimpleDate
  maturity_period : Nat
  policy_lapse_date : SimpleDate
  created_at : Nat
deriving DecidableEq

/-- `models.py` `class Payment`. -/
structure Payment where
  payment_id : Nat
  customer_id : Nat
  policy_id : Nat
  amount : Int
  payment_date : Nat
  created_at : Nat
deriving DecidableEq

/-- `models.py` `class Commission` — `commission_amount` receives the float
`policy.premium * commission_rate`, modelled exactly as `ℚ`. -/
structure Commission where
  agent_id : Nat
  policy_id : Nat
  commission_amount : ℚ
deriving DecidableEq

/-- `models.py` `class CustomerPolicy` — the assignment table binding one
customer to one policy (`id` autoincrement column omitted: no handler reads
it). -/
structure CustomerPolicy where
  customer_id : Nat
  policy_id : Nat
  date_assigned : Nat
deriving DecidableEq

/-- The relational store: one list of rows per table, in insertion order
(`query(...).first()` / `.all()` read in this order). -/
structure Db where
  admins : List Admin
  employees : List Employee
  agents : List InsuranceAgent
  customers : List Customer
  policies : List Policy
  customerPolicies : List CustomerPolicy
  payments : List Payment
  commissions : List Commission
deriving DecidableEq

/-- A column value, for the `to_dict` serializers of `models.py`. -/
inductive Value where
  | vInt (n : Int)
  | vStr (s : String)
  | vDate (d : SimpleDate)
  | vNone
deriving DecidableEq

/-- Column-name list of the `admin` table, in declaration order. -/
def Admin.columns : List String :=
  ["admin_id", "email", "password", "username", "full_name", "created_at"]

/-- Column access on an `Admin` row, used by `to_dict` (`getattr(self, col.name)`). -/
def Admin.getCol (a : Admin) : String → Value
  | "admin_id" => .vInt a.admin_id
  | "email" => .vStr a.email
  | "password" => .vStr a.password
  | "username" => .vStr a.username
  | "full_name" => .vStr a.full_name
  | "created_at" => .vInt a.created_at
  | _ => .vNone

/-- `models.py` `Admin.to_dict`: `{col.name: getattr(self, col.name) for col
in self.__table__.columns if col.name != "password"}`. -/
def Admin.to_dict (a : Admin) : List (String × Value) :=
  (Admin.columns.filter (fun n => n != "password")).map (fun n => (n, a.getCol n))

/-- Column-name list of the `employee` table. -/
def Employee.columns : List String :=
  ["employee_id", "email", "password", "username", "full_name", "created_at"]

/-- Column access on an `Employee` row. -/
def Employee.getCol (e : Employee) : String → Value
  | "employee_id" => .vInt e.employee_id
  | "email" => .vStr e.email
  | "password" => .vStr e.password
  | "username" => .vStr e.username
  | "full_name" => .vStr e.full_name
  | "created_at" => .vInt e.created_at
  | _ => .vNone

/-- `models.py` `Employee.to_dict` (same comprehension as `Admin.to_dict`). -/
def Employee.to_dict (e : Employee) : List (String × Value) :=
  (Employee.columns.filter (fun n => n != "password")).map (fun n => (n, e.getCol n))

/-- Column-name list of the `insurance_agent` table. -/
def InsuranceAgent.columns : List String :=
  ["agent_id", "email", "password", "username", "full_name", "created_at"]

/-- Column access on an `InsuranceAgent` row. -/
def InsuranceAgent.getCol (g : InsuranceAgent) : String → Value
  | "agent_id" => .vInt g.agent_id
  | "email" => .vStr g.email
  | "password" => .vStr g.password
  | "username" => .vStr g.username
  | "full_name" => .vStr g.full_name
  | "created_at" => .vInt g.created_at
  | _ => .vNone

/-- `models.py` `InsuranceAgent.to_dict`. -/
def InsuranceAgent.to_dict (g : InsuranceAgent) : List (String × Value) :=
  (InsuranceAgent.columns.filter (fun n => n != "password")).map (fun n => (n, g.getCol n))

/-- Column-name list of the `customer` table, in declaration order. -/
def Customer.columns : List String :=
  ["customer_id", "email", "password", "full_name", "username",
   "date_of_birth", "agent_id", "created_at"]

/-- Column access on a `Customer` row. -/
def Customer.getCol (c : Customer) : String → Value
  | "customer_id" => .vInt c.customer_id
  | "email" => .vStr c.email
  | "password" => .vStr c.password
  | "full_name" => .vStr c.full_name
  | "username" => .vStr c.username
  | "date_of_birth" => match c.date_of_birth with
    | some d => .vDate d
    | none => .vNone
  | "agent_id" => match c.agent_id with
    | some a => .vInt a
    | none => .vNone
  | "created_at" => .vInt c.created_at
  | _ => .vNone

/-- `models.py` `Customer.to_dict`. -/
def Customer.to_dict (c : Customer) : List (String × Value) :=
  (Customer.columns.filter (fun n => n != "password")).map (fun n => (n, c.getCol n))

/-- Column-name list of the `policy` table, in declaration order. -/
def Policy.columns : List String :=
  ["policy_id", "scheme_id", "policy_details", "premium", "date_issued",
   "maturity_period", "policy_lapse_date", "created_at"]

/-- Column access on a `Policy` row. -/
def Policy.getCol (p : Policy) : String → Value
  | "policy_id" => .vInt p.policy_id
  | "scheme_id" => .vInt p.scheme_id
  | "policy_details" => .vStr p.policy_details
  | "premium" => .vInt p.premium
  | "date_issued" => .vDate p.date_issued
  | "maturity_period" => .vInt p.maturity_period
  | "policy_lapse_date" => .vDate p.policy_lapse_date
  | "created_at" => .vInt p.created_at
  | _ => .vNone

/-- `models.py` `Policy.to_dict` (the `policy` table has no `password`
column, so the comprehension keeps every column). -/
def Policy.to_dict (p : Policy) : List (String × Value) :=
  (Policy.columns.filter (fun n => n != "password")).map (fun n => (n, p.getCol n))

/-- Python `str.lower()`, as applied to `user_type` by the handlers
(structural recursion over the characters, so concrete instances compute). -/
def pyLower (s : String) : String := ⟨s.data.map Char.toLower⟩

/-- A raised `HTTPException(status_code, detail)`. -/
structure HttpError where
  status : Nat
  detail : String
deriving DecidableEq

/-- `settings.py` — JWT lifetimes (minutes); the signing key and algorithm
are abstracted into `Token.sigValid` below. -/
structure Settings where
  access_token_expire_minutes : Nat
  refresh_token_expire_minutes : Nat
deriving DecidableEq

/-- The claim set encoded into a token by the callers of `create_token`:
`{"sub": email}` on registration, `{"sub": email, "user_id": id}` on login.
`verify_user` reads only `sub` (`payload.get("sub")`). -/
structure Claims where
  sub : Option String
  user_id : Option Nat
deriving DecidableEq

/-- A JWT as relevant to this backend: `sigValid` abstracts "decodes
successfully under `settings.secret_key` / `settings.algorithm`"; `exp` is
the expiry instant in seconds (PyJWT stores `exp` as an integer Unix
timestamp and rejects the token when `exp <= now`). -/
structure Token where
  sigValid : Bool
  claims : Claims
  exp : Nat
deriving DecidableEq

/-- `utils.py` `create_token(data, token_type, exp=None)`: picks the expiry
`exp or (now + timedelta(minutes=ttl))` according to `token_type`, raises
`ValueError` on any other type, and signs the claims (so the produced token
has a valid signature).  `now` and `expOverride` are in seconds. -/
def create_token (cfg : Settings) (data : Claims) (token_type : String)
    (expOverride : Option Nat) (now : Nat) : Except String Token :=
  if token_type = "access" then
    let expiration := match expOverride with
      | some e => e
      | none => now + 60 * cfg.access_token_expire_minutes
    .ok { sigValid := true, claims := data, exp := expiration }
  else if token_type = "refresh" then
    let expiration := match expOverride with
      | some e => e
      | none => now + 60 * cfg.refresh_token_expire_minutes
    .ok { sigValid := true, claims := data, exp := expiration }
  else
    .error "Invalid token type. Must be 'access' or 'refresh'."

/-- `utils.py` `create_tokens(data)`: one access token and one refresh token
over the same claims. -/
def create_tokens (cfg : Settings) (data : Claims) (now : Nat) :
    Except String (Token × Token) := do
  let access_token ← create_token cfg data "access" none now
  let refresh_token ← create_token cfg data "refresh" none now
  return (access_token, refresh_token)

/-- `utils.py` `verify_user(token, db, user_type)`:
`jwt.decode` validates the signature (`InvalidTokenError` → 401 "Invalid
token") and then the `exp` claim (`ExpiredSignatureError` when `exp <= now`
→ 401 "Token has expired"); an absent/empty `sub` is 401 "Invalid token:
email missing"; the subject is then looked up in the table selected by
`user_type.lower()` — 400 for any other type, 403 "Access denied" when no
row matches; on success returns `(email, customer_id-or-None)`. -/
def verify_user (token : Token) (db : Db) (user_type : String) (now : Nat) :
    Except HttpError (String × Option Nat) :=
  if token.sigValid = false then
    .error ⟨401, "Invalid token"⟩
  else if token.exp ≤ now then
    .error ⟨401, "Token has expired"⟩
  else
    match token.claims.sub with
    | none => .error ⟨401, "Invalid token: email missing"⟩
    | some email =>
      if email = "" then
        .error ⟨401, "Invalid token: email missing"⟩
      else if pyLower user_type = "admin" then
        match db.admins.find? (fun a => a.email == email) with
        | none => .error ⟨403, "Access denied: User is not a valid " ++ user_type⟩
        | some _ => .ok (email, none)
      else if pyLower user_type = "customer" then
        match db.customers.find? (fun c => c.email == email) with
        | none => .error ⟨403, "Access denied: User is not a valid " ++ user_type⟩
        | some c => .ok (email, some c.customer_id)
      else
        .error ⟨400, "Invalid " ++ user_type ++ " provided"⟩

/-- Age computation of `customer_routes.py` (lines 44–46 and 137–139):
`today.year - dob.year - ((today.month, today.day) < (dob.month, dob.day))`,
the tuple comparison being lexicographic and the boolean counting as 1. -/
def computeAge (dob today : SimpleDate) : Int :=
  today.year - dob.year -
    (if today.month < dob.month ∨ (today.month = dob.month ∧ today.day < dob.day)
     then 1 else 0)

/-- The per-policy premium expression of `customer_routes.py` (lines 73–79
and 162–168): `base_premium * age_factor * interest_factor` with
`age_factor = 1 + age/100` and `interest_factor = 1 + rate/100`. -/
def policyPremium (base_premium : Int) (age : Int) (rate_of_interest : ℚ) : ℚ :=
  let age_factor : ℚ := 1 + (age : ℚ) / 100
  let interest_factor : ℚ := 1 + rate_of_interest / 100
  (base_premium : ℚ) * age_factor * interest_factor

/-- Python `round(x, 2)` as used for display values.  (Python rounds binary
floats half-to-even; no claim in this development depends on a tie, so the
exact-arithmetic half-up rounding below is used.) -/
def round2 (x : ℚ) : ℚ := ((⌊x * 100 + 1 / 2⌋ : Int) : ℚ) / 100

/-- One entry of the `policy_premium_details` list built by
`calculate_premium_by_policy_ids` (lines 83–87). -/
structure PremiumDetail where
  policy_id : Nat
  base_premium : Int
  calculated_premium : ℚ
deriving DecidableEq

/-- The `for policy in policies` loop of `calculate_premium_by_policy_ids`
(lines 67–87): rejects a falsy (`0`) base premium with HTTP 400, otherwise
accumulates the unrounded premium into the total and appends a detail entry
whose displayed premium is rounded to 2 decimals. -/
def premiumLoop : List Policy → Int → ℚ → Except HttpError (ℚ × List PremiumDetail)
  | [], _, _ => .ok (0, [])
  | p :: rest, age, rate =>
    if p.premium = 0 then
      .error ⟨400, s!"Policy {p.policy_id} has no premium defined"⟩
    else
      match premiumLoop rest age rate with
      | .error e => .error e
      | .ok (t, ds) =>
        let pp := policyPremium p.premium age rate
        .ok (pp + t, ⟨p.policy_id, p.premium, round2 pp⟩ :: ds)

/-- Success payload of `calculate_premium_by_policy_ids` (lines 91–101). -/
structure PremiumByIdsResponse where
  customer_id : Option Nat
  age : Int
  rate_of_interest : ℚ
  total_premium : ℚ
  policies : List PremiumDetail
deriving DecidableEq

/-- `customer_routes.py` `calculate_premium_by_policy_ids` (lines 16–109):
verify the customer token, load the customer row, require a date of birth,
compute the age, load the policies whose ids were requested (rejecting the
request when some id has no row), then run the premium loop and round the
total for the response.  `today` stands for `datetime.today()`. -/
def calculate_premium_by_policy_ids (policy_ids : List Nat) (rate_of_interest : ℚ)
    (token : Token) (db : Db) (now : Nat) (today : SimpleDate) :
    Except HttpError PremiumByIdsResponse :=
  match verify_user token db "customer" now with
  | .error e => .error e
  | .ok (_, customer_id) =>
    match db.customers.find? (fun c => (some c.customer_id : Option Nat) == customer_id) with
    | none => .error ⟨404, "Customer not found"⟩
    | some customer =>
      match customer.date_of_birth with
      | none => .error ⟨400, "Date of birth is missing for the customer"⟩
      | some dob =>
        let age := computeAge dob today
        let policies := db.policies.filter (fun p => policy_ids.contains p.policy_id)
        if policies.length ≠ policy_ids.length then
          let existing := policies.map (fun p => p.policy_id)
          let invalid := policy_ids.filter (fun pid => !(existing.contains pid))
          .error ⟨400, s!"Invalid policy IDs provided: {invalid}"⟩
        else
          match premiumLoop policies age rate_of_interest with
          | .error e => .error e
          | .ok (total, details) =>
            .ok { customer_id := customer_id, age := age,
                  rate_of_interest := rate_of_interest,
                  total_premium := round2 total, policies := details }

/-- Request body of `calculate_remaining_premium` (`CalculatePremiumSchema`,
read only for its `rate_of_interest` field). -/
structure CalculatePremiumReq where
  rate_of_interest : ℚ
deriving DecidableEq

/-- The inner join of `calculate_remaining_premium` (line 145):
`query(CustomerPolicy).join(Policy, CustomerPolicy.policy_id ==
Policy.policy_id).filter(CustomerPolicy.customer_id == customer_id)`,
returning for each matching assignment its related `Policy` row
(`customer_policy.policy`). -/
def joinedPolicies (db : Db) (customer_id : Option Nat) : List Policy :=
  (db.customerPolicies.filter
      (fun cp => (some cp.customer_id : Option Nat) == customer_id)).filterMap
    (fun cp => db.policies.find? (fun p => p.policy_id == cp.policy_id))

/-- The `for customer_policy in policies` loop of
`calculate_remaining_premium` (lines 152–170): same premium formula and falsy
check, collecting policy ids instead of detail records. -/
def remainingLoop : List Policy → Int → ℚ → Except HttpError (ℚ × List Nat)
  | [], _, _ => .ok (0, [])
  | p :: rest, age, rate =>
    if p.premium = 0 then
      .error ⟨400, s!"Policy {p.policy_id} has no premium defined"⟩
    else
      match remainingLoop rest age rate with
      | .error e => .error e
      | .ok (t, ids) => .ok (policyPremium p.premium age rate + t, p.policy_id :: ids)

/-- Success payload of `calculate_remaining_premium` (lines 175–185). -/
structure RemainingPremiumResponse where
  customer_id : Option Nat
  age : Int
  policies : List Nat
  rate_of_interest : ℚ
  total_premium : ℚ
deriving DecidableEq

/-- `customer_routes.py` `calculate_remaining_premium` (lines 113–193):
verify the customer token, load the customer, require a date of birth,
compute the age, join the customer's policy assignments with the policy
table (404 when that list is empty), then sum the premiums. -/
def calculate_remaining_premium (premium_details : CalculatePremiumReq)
    (token : Token) (db : Db) (now : Nat) (today : SimpleDate) :
    Except HttpError RemainingPremiumResponse :=
  match verify_user token db "customer" now with
  | .error e => .error e
  | .ok (_, customer_id) =>
    match db.customers.find? (fun c => (some c.customer_id : Option Nat) == customer_id) with
    | none => .error ⟨404, "Customer not found"⟩
    | some customer =>
      match customer.date_of_birth with
      | none => .error ⟨400, "Date of birth is missing for the customer"⟩
      | some dob =>
        let age := computeAge dob today
        let policies := joinedPolicies db customer_id
        if policies = [] then
          .error ⟨404, "No policies found for the customer"⟩
        else
          match remainingLoop policies age premium_details.rate_of_interest with
          | .error e => .error e
          | .ok (total, ids) =>
            .ok { customer_id := customer_id, age := age, policies := ids,
                  rate_of_interest := premium_details.rate_of_interest,
                  total_premium := round2 total }

/-- Request body of `make_payment` (`PaymentSchema`: the fields the handler
reads are `policy_id` and `amount`). -/
structure PaymentReq where
  policy_id : Nat
  amount : Int
deriving DecidableEq

/-- `customer_routes.py` `make_payment` (lines 196–240): verify the customer
token and load the policy (404 when absent).  The source then evaluates
`policy.customer_id` (line 212); the `Policy` model defines no `customer_id`
attribute, so Python raises `AttributeError`, which the handler's
`except Exception` clause turns into HTTP 500 "Internal server error".  The
`Payment` construction and `db.add`/`db.commit` below that line are
unreachable, so every path returns the store unchanged. -/
def make_payment (payment : PaymentReq) (token : Token) (db : Db) (now : Nat) :
    Except HttpError Nat × Db :=
  match verify_user token db "customer" now with
  | .error e => (.error e, db)
  | .ok _ =>
    match db.policies.find? (fun p => p.policy_id == payment.policy_id) with
    | none => (.error ⟨404, "Policy not found"⟩, db)
    | some _ => (.error ⟨500, "Internal server error"⟩, db)

/-- The two response shapes of `get_policies` (`policies_routes.py` lines
66–77 for admins, 86–94 for customers). -/
inductive PoliciesResponse where
  | customerPage (current_page page_size total_pages total_records : Nat)
      (data : List (List (String × Value)))
  | adminPage (current_page page_size total_pages total_policies
      total_purchased_policies : Nat) (data : List (List (String × Value)))
deriving DecidableEq

/-- `policies_routes.py` `get_policies` (lines 12–101).  The endpoint takes
`user_type`, `page` and `size` as query parameters and a database session —
it has NO token parameter and never calls `verify_user`.  `user_type` outside
{admin, customer} is a 400; customers get the policy page (404 when the page
slice is empty); admins get every policy row left-outer-joined with the
assignment table, a `customer_id` entry of "Not Assigned" standing for a
falsy (absent or 0) id.  FastAPI validates `page ≥ 1` and `1 ≤ size ≤ 100`
before the handler runs. -/
def get_policies (user_type : String) (page size : Nat) (db : Db) :
    Except HttpError PoliciesResponse :=
  let ut := pyLower user_type
  if ut ≠ "admin" ∧ ut ≠ "customer" then
    .error ⟨400, "Invalid user type. Allowed values: 'admin', 'customer'."⟩
  else
    let offset := (page - 1) * size
    if ut = "customer" then
      let total_records := db.policies.length
      let policies := (db.policies.drop offset).take size
      let policies_data := policies.map Policy.to_dict
      if policies_data = [] then
        .error ⟨404, "No policies found on this page"⟩
      else
        .ok (.customerPage page size ((total_records + size - 1) / size)
          total_records policies_data)
    else
      let total_policies := db.policies.length
      let joined := db.policies.flatMap (fun p =>
        match db.customerPolicies.filter (fun cp => cp.policy_id == p.policy_id) with
        | [] => [(p, (none : Option Nat))]
        | l => l.map (fun cp => (p, some cp.customer_id)))
      let rows := (joined.drop offset).take size
      let policies_data := rows.map (fun pr =>
        pr.1.to_dict ++ [("customer_id",
          match pr.2 with
          | some c => if c ≠ 0 then Value.vInt c else Value.vStr "Not Assigned"
          | none => Value.vStr "Not Assigned")])
      let total_purchased_policies := db.customerPolicies.length
      .ok (.adminPage page size ((total_policies + size - 1) / size)
        total_policies total_purchased_policies policies_data)

/-- Request body of `purchase_policy` (`PurchasePolicySchema`: the handler
reads `policy_id`). -/
structure PurchaseReq where
  policy_id : Nat
deriving DecidableEq

/-- `policies_routes.py` `purchase_policy` (lines 105–160): verify the
customer token, load the requested policy (404), then run
`db.query(Customer).filter(customer_id == customer_id).first()` — the filter
argument is the Python boolean `customer_id == customer_id` over the local
variable, i.e. `True`, so this returns the FIRST row of the customer table
whatever its id (404 only when the table is empty).  A row already binding
(customer, policy) is a 400 "Policy already purchased by the customer";
otherwise a new `CustomerPolicy` row is inserted and committed.

`verify_user` with `user_type="customer"` always returns a `some` customer
id; the `.ok (_, none)` branch is unreachable and stands for the store
rejecting a NULL `customer_id` (NOT NULL constraint), which the handler's
`except Exception` clause would report as HTTP 500. -/
def purchase_policy (policy_data : PurchaseReq) (token : Token) (db : Db) (now : Nat) :
    Except HttpError (List (String × Value)) × Db :=
  match verify_user token db "customer" now with
  | .error e => (.error e, db)
  | .ok (_, none) => (.error ⟨500, "Unexpected error occurred"⟩, db)
  | .ok (_, some cid) =>
    match db.policies.find? (fun p => p.policy_id == policy_data.policy_id) with
    | none => (.error ⟨404, "Policy not found"⟩, db)
    | some policy =>
      match db.customers.head? with
      | none => (.error ⟨404, "Customer not found"⟩, db)
      | some _ =>
        match db.customerPolicies.find?
            (fun cp => cp.customer_id == cid && cp.policy_id == policy_data.policy_id) with
        | some _ => (.error ⟨400, "Policy already purchased by the customer"⟩, db)
        | none =>
          let newRow : CustomerPolicy :=
            { customer_id := cid, policy_id := policy_data.policy_id, date_assigned := now }
          (.ok policy.to_dict,
           { db with customerPolicies := db.customerPolicies ++ [newRow] })

/-- Request body of `calculate_commission` (`CalculateCommissionSchema`: the
handler reads `agent_id` and `commission_rate`). -/
structure CommissionReq where
  agent_id : Nat
  commission_rate : ℚ
deriving DecidableEq

/-- Success payload of `calculate_commission` (lines 566–571) — never
produced, see `calculate_commission`. -/
structure CommissionResponse where
  agent_id : Nat
  total_commission : ℚ
  commission_rate : ℚ
deriving DecidableEq

/-- `admin_routes.py` `calculate_commission` (lines 501–578): verify the
admin token, load the agent (404 "Insurance agent not found"), load the
agent's customers (404 "No customers found for this agent" when none).  The
source then evaluates `Policy.customer_id.in_(customer_ids)` (line 524); the
`Policy` model defines no `customer_id` attribute, so Python raises
`AttributeError`, which the handler's `except Exception` clause turns into
HTTP 500 "Internal server error".  The policy check, the commission loop and
the `Commission` inserts below that line are unreachable, so every path
returns the store unchanged. -/
def calculate_commission (commission_details : CommissionReq) (token : Token)
    (db : Db) (now : Nat) : Except HttpError CommissionResponse × Db :=
  match verify_user token db "admin" now with
  | .error e => (.error e, db)
  | .ok _ =>
    match db.agents.find? (fun a => a.agent_id == commission_details.agent_id) with
    | none => (.error ⟨404, "Insurance agent not found"⟩, db)
    | some agent =>
      let customers := db.customers.filter
        (fun c => c.agent_id == (some agent.agent_id : Option Nat))
      if customers = [] then
        (.error ⟨404, "No customers found for this agent"⟩, db)
      else
        (.error ⟨500, "Internal server error"⟩, db)

/-- Request body of `login_user` (`UserLoginSchema`: email and password). -/
structure LoginReq where
  email : String
  password : String
deriving DecidableEq

/-- Success payload of `login_user` (lines 179–185): the two tokens and the
serialized principal. -/
structure LoginResponse where
  access_token : Token
  refresh_token : Token
  data : List (String × Value)
deriving DecidableEq

/-- `login_routes.py` `login_user` (lines 139–194): dispatch on
`user_type.lower()` through the model mapping (400 "Invalid user type"
otherwise), look the user up by email, check the password with
`verify_password` (modelled by the `checkPw` collaborator — bcrypt is out of
scope), issue the token pair over `{"sub": email, "user_id": id}` and return
the principal's `to_dict`.  `create_tokens` cannot fail on the literal kinds
"access"/"refresh"; its error branch maps to the handler's catch-all 500. -/
def login_user (cfg : Settings) (checkPw : String → String → Bool)
    (user_data : LoginReq) (user_type : String) (db : Db) (now : Nat) :
    Except HttpError LoginResponse :=
  let ut := pyLower user_type
  if ut = "admin" then
    match db.admins.find? (fun u => u.email == user_data.email) with
    | none => .error ⟨400, "Invalid email or password"⟩
    | some u =>
      if checkPw user_data.password u.password then
        match create_tokens cfg ⟨some u.email, some u.admin_id⟩ now with
        | .ok (a, r) => .ok ⟨a, r, u.to_dict⟩
        | .error _ => .error ⟨500, "Internal server error"⟩
      else .error ⟨400, "Invalid email or password"⟩
  else if ut = "employee" then
    match db.employees.find? (fun u => u.email == user_data.email) with
    | none => .error ⟨400, "Invalid email or password"⟩
    | some u =>
      if checkPw user_data.password u.password then
        match create_tokens cfg ⟨some u.email, some u.employee_id⟩ now with
        | .ok (a, r) => .ok ⟨a, r, u.to_dict⟩
        | .error _ => .error ⟨500, "Internal server error"⟩
      else .error ⟨400, "Invalid email or password"⟩
  else if ut = "customer" then
    match db.customers.find? (fun u => u.email == user_data.email) with
    | none => .error ⟨400, "Invalid email or password"⟩
    | some u =>
      if checkPw user_data.password u.password then
        match create_tokens cfg ⟨some u.email, some u.customer_id⟩ now with
        | .ok (a, r) => .ok ⟨a, r, u.to_dict⟩
        | .error _ => .error ⟨500, "Internal server error"⟩
      else .error ⟨400, "Invalid email or password"⟩
  else if ut = "insurance_agent" then
    match db.agents.find? (fun u => u.email == user_data.email) with
    | none => .error ⟨400, "Invalid email or password"⟩
    | some u =>
      if checkPw user_data.password u.password then
        match create_tokens cfg ⟨some u.email, some u.agent_id⟩ now with
        | .ok (a, r) => .ok ⟨a, r, u.to_dict⟩
        | .error _ => .error ⟨500, "Internal server error"⟩
      else .error ⟨400, "Invalid email or password"⟩
  else
    .error ⟨400, "Invalid user type"⟩

end EInsurance



namespace EInsurance

lemma pyLower_admin : pyLower "admin" = "admin" := by decide

lemma pyLower_customer : pyLower "customer" = "customer" := by decide

/-- An empty store, base for the concrete fixtures below. -/
def emptyDb : Db := ⟨[], [], [], [], [], [], [], []⟩

/-- A customer row used by the concrete fixtures. -/
def custRow : Customer := ⟨1, "c@x", "pw", "C", "c", some ⟨2000, 1, 1⟩, none, 0⟩

/-- A store holding exactly that one customer and no admin. -/
def dbCust : Db := { emptyDb with customers := [custRow] }

/-- C1: for a token whose signature and expiry are valid and whose subject
claim carries an email, `verify_user` fails with HTTP 403 (access denied)
when the required role's table has no row for that email — in particular a
token whose subject exists only in the customer table is rejected for
`user_type = "admin"` — and on success returns the email paired with the
customer id for `"customer"` and with `none` for `"admin"`. -/
theorem verify_user_role_authorization (token : Token) (db : Db) (now : Nat)
    (email : String) (hsig : token.sigValid = true) (hexp : now < token.exp)
    (hsub : token.claims.sub = some email) (hne : email ≠ "") :
    (db.admins.find? (fun x => x.email == email) = none →
      verify_user token db "admin" now =
        .error ⟨403, "Access denied: User is not a valid admin"⟩) ∧
    (db.customers.find? (fun x => x.email == email) = none →
      verify_user token db "customer" now =
        .error ⟨403, "Access denied: User is not a valid customer"⟩) ∧
    (∀ a, db.admins.find? (fun x => x.email == email) = some a →
      verify_user token db "admin" now = .ok (email, none)) ∧
    (∀ c, db.customers.find? (fun x => x.email == email) = some c →
      verify_user token db "customer" now = .ok (email, some c.customer_id)) := by
  have hexp' : ¬ token.exp ≤ now := Nat.not_le.mpr hexp
  refine ⟨fun hnone => ?_, fun hnone => ?_, fun a ha => ?_, fun c hc => ?_⟩
  · simp [verify_user, hsig, hexp', hsub, hne, pyLower_admin, hnone]
  · simp [verify_user, hsig, hexp', hsub, hne, pyLower_customer, hnone]
  · simp [verify_user, hsig, hexp', hsub, hne, pyLower_admin, ha]
  · simp [verify_user, hsig, hexp', hsub, hne, pyLower_customer, hc]

/-- Witness for C1: the fixture customer's token is rejected with 403 for
the admin role and accepted (with the customer id) for the customer role. -/
theorem verify_user_role_authorization_witness :
    verify_user ⟨true, ⟨some "c@x", none⟩, 100⟩ dbCust "admin" 0 =
      .error ⟨403, "Access denied: User is not a valid admin"⟩ ∧
    verify_user ⟨true, ⟨some "c@x", none⟩, 100⟩ dbCust "customer" 0 =
      .ok ("c@x", some 1) :=
  ⟨(verify_user_role_authorization ⟨true, ⟨some "c@x", none⟩, 100⟩ dbCust 0 "c@x"
      rfl (by decide) rfl (by decide)).1 (by decide),
   (verify_user_role_authorization ⟨true, ⟨some "c@x", none⟩, 100⟩ dbCust 0 "c@x"
      rfl (by decide) rfl (by decide)).2.2.2 custRow (by decide)⟩

/-- C2: a token created with `token_type = "access"` at `issueTime` expires
exactly at `issueTime + 60 * access_token_expire_minutes` (the configured
TTL in seconds): `verify_user` fails with 401 "Token has expired" at every
`now` at or past that instant, for every role string, and succeeds at every
earlier `now` provided the subject's row exists in the required role's
table. -/
theorem access_token_expiry (cfg : Settings) (data : Claims) (db : Db)
    (issueTime now : Nat) (tok : Token) (email : String)
    (hcreate : create_token cfg data "access" none issueTime = .ok tok)
    (hsub : data.sub = some email) (hne : email ≠ "") :
    (issueTime + 60 * cfg.access_token_expire_minutes ≤ now →
      ∀ user_type, verify_user tok db user_type now =
        .error ⟨401, "Token has expired"⟩) ∧
    (now < issueTime + 60 * cfg.access_token_expire_minutes →
      (∀ a, db.admins.find? (fun x => x.email == email) = some a →
        verify_user tok db "admin" now = .ok (email, none)) ∧
      (∀ c, db.customers.find? (fun x => x.email == email) = some c →
        verify_user tok db "customer" now = .ok (email, some c.customer_id))) := by
  have htok : tok = ⟨true, data, issueTime + 60 * cfg.access_token_expire_minutes⟩ := by
    simp [create_token] at hcreate
    exact hcreate.symm
  subst htok
  constructor
  · intro h user_type
    simp [verify_user, h]
  · intro h
    have hexp' : ¬ issueTime + 60 * cfg.access_token_expire_minutes ≤ now :=
      Nat.not_le.mpr h
    refine ⟨fun a ha => ?_, fun c hc => ?_⟩
    · simp [verify_user, hexp', hsub, hne, pyLower_admin, ha]
    · simp [verify_user, hexp', hsub, hne, pyLower_customer, hc]

lemma round2_zero : round2 0 = 0 := by norm_num [round2]

/-- The premium loop computes the unrounded sum of the per-policy formula
and one rounded detail entry per policy. -/
lemma premiumLoop_ok (ps : List Policy) (age : Int) (q : ℚ) (t : ℚ)
    (ds : List PremiumDetail) (h : premiumLoop ps age q = .ok (t, ds)) :
    t = (ps.map (fun p => policyPremium p.premium age q)).sum ∧
    ds = ps.map (fun p => ⟨p.policy_id, p.premium, round2 (policyPremium p.premium age q)⟩) := by
  induction ps generalizing t ds with
  | nil =>
    simp [premiumLoop] at h
    simp [h.1.symm, h.2.symm]
  | cons p rest ih =>
    by_cases hp : p.premium = 0
    · simp [premiumLoop, hp] at h
    · cases hrec : premiumLoop rest age q with
      | error e => simp [premiumLoop, hp, hrec] at h
      | ok pr =>
        obtain ⟨t', ds'⟩ := pr
        simp [premiumLoop, hp, hrec] at h
        obtain ⟨hsum, hds⟩ := ih t' ds' hrec
        simp [← h.1, ← h.2, hsum, hds]

/-- The premium loop succeeds whenever every listed policy has a non-zero
base premium. -/
lemma premiumLoop_all_set (ps : List Policy) (age : Int) (q : ℚ)
    (h : ∀ p ∈ ps, p.premium ≠ 0) : ∃ pr, premiumLoop ps age q = .ok pr := by
  induction ps with
  | nil => exact ⟨(0, []), rfl⟩
  | cons p rest ih =>
    obtain ⟨⟨t', ds'⟩, hrec⟩ := ih (fun x hx => h x (List.mem_cons_of_mem p hx))
    refine ⟨(policyPremium p.premium age q + t',
      ⟨p.policy_id, p.premium, round2 (policyPremium p.premium age q)⟩ :: ds'), ?_⟩
    simp [premiumLoop, h p (List.mem_cons_self p rest), hrec]

/-- The loop of `calculate_remaining_premium` computes the unrounded sum of
the per-policy formula and collects one policy id per policy. -/
lemma remainingLoop_ok (ps : List Policy) (age : Int) (q : ℚ) (t : ℚ)
    (ids : List Nat) (h : remainingLoop ps age q = .ok (t, ids)) :
    t = (ps.map (fun p => policyPremium p.premium age q)).sum ∧
    ids = ps.map (fun p => p.policy_id) := by
  induction ps generalizing t ids with
  | nil =>
    simp [remainingLoop] at h
    simp [h.1.symm, h.2.symm]
  | cons p rest ih =>
    by_cases hp : p.premium = 0
    · simp [remainingLoop, hp] at h
    · cases hrec : remainingLoop rest age q with
      | error e => simp [remainingLoop, hp, hrec] at h
      | ok pr =>
        obtain ⟨t', ids'⟩ := pr
        simp [remainingLoop, hp, hrec] at h
        obtain ⟨hsum, hids⟩ := ih t' ids' hrec
        simp [← h.1, ← h.2, hsum, hids]

/-- The loop of `calculate_remaining_premium` succeeds whenever every listed
policy has a non-zero base premium. -/
lemma remainingLoop_all_set (ps : List Policy) (age : Int) (q : ℚ)
    (h : ∀ p ∈ ps, p.premium ≠ 0) : ∃ pr, remainingLoop ps age q = .ok pr := by
  induction ps with
  | nil => exact ⟨(0, []), rfl⟩
  | cons p rest ih =>
    obtain ⟨⟨t', ids'⟩, hrec⟩ := ih (fun x hx => h x (List.mem_cons_of_mem p hx))
    refine ⟨(policyPremium p.premium age q + t', p.policy_id :: ids'), ?_⟩
    simp [remainingLoop, h p (List.mem_cons_self p rest), hrec]

/-- When some listed policy has base premium 0 (the falsy check
`if not policy.premium`), both premium loops fail with the 400
"has no premium defined" error naming the first such policy. -/
lemma loops_first_missing (ps : List Policy) (age : Int) (q : ℚ)
    (hex : ∃ p ∈ ps, p.premium = 0) :
    ∃ p, p ∈ ps ∧ p.premium = 0 ∧
      premiumLoop ps age q =
        .error ⟨400, s!"Policy {p.policy_id} has no premium defined"⟩ ∧
      remainingLoop ps age q =
        .error ⟨400, s!"Policy {p.policy_id} has no premium defined"⟩ := by
  induction ps with
  | nil => simp at hex
  | cons p rest ih =>
    by_cases hp : p.premium = 0
    · exact ⟨p, List.mem_cons_self p rest, hp,
        by simp [premiumLoop, hp], by simp [remainingLoop, hp]⟩
    · have hex' : ∃ x ∈ rest, x.premium = 0 := by
        obtain ⟨x, hx, hx0⟩ := hex
        rcases List.mem_cons.mp hx with heq | hmem
        · exact absurd (heq ▸ hx0) hp
        · exact ⟨x, hmem, hx0⟩
      obtain ⟨x, hmem, hx0, hperr, hrerr⟩ := ih hex'
      refine ⟨x, List.mem_cons_of_mem p hmem, hx0, ?_, ?_⟩
      · simp [premiumLoop, hp, hperr]
      · simp [remainingLoop, hp, hrerr]

/-- C3: the per-policy premium computed by the premium handlers' loop is
exactly `base × (1 + age/100) × (1 + rate/100)` before rounding — the loop
total is the exact sum of that formula over the listed policies — and at
`(1000, age 30, rate 5)` the formula yields 1365. -/
theorem compute_premium_formula :
    (∀ (b age : Int) (r : ℚ), 0 ≤ b → 0 ≤ age → 0 ≤ r →
      policyPremium b age r = (b : ℚ) * (1 + (age : ℚ) / 100) * (1 + r / 100)) ∧
    (∀ (ps : List Policy) (age : Int) (r : ℚ) (t : ℚ) (ds : List PremiumDetail),
      premiumLoop ps age r = .ok (t, ds) →
      t = (ps.map (fun p => policyPremium p.premium age r)).sum) ∧
    policyPremium 1000 30 5 = 1365 := by
  refine ⟨fun b age r _ _ _ => rfl, ?_, by norm_num [policyPremium]⟩
  intro ps age r t ds h
  exact (premiumLoop_ok ps age r t ds h).1

/-- Witness for C3: the formula instance at base 1000, age 30, rate 5. -/
theorem compute_premium_formula_witness :
    policyPremium 1000 30 5 = (1000 : ℚ) * (1 + (30 : Int) / 100) * (1 + 5 / 100) := by
  have := compute_premium_formula.1 1000 30 5 (by norm_num) (by norm_num) (by norm_num)
  simpa using this

/-- Witness for C2: with a 30-minute access TTL, a token issued at 0 fails
verification at `now = 1800` and succeeds at `now = 1799`. -/
theorem access_token_expiry_witness :
    verify_user ⟨true, ⟨some "c@x", none⟩, 1800⟩ dbCust "customer" 1800 =
      .error ⟨401, "Token has expired"⟩ ∧
    verify_user ⟨true, ⟨some "c@x", none⟩, 1800⟩ dbCust "customer" 1799 =
      .ok ("c@x", some 1) :=
  ⟨(access_token_expiry ⟨30, 60⟩ ⟨some "c@x", none⟩ dbCust 0 1800
      ⟨true, ⟨some "c@x", none⟩, 1800⟩ "c@x" (by decide) rfl (by decide)).1
      (by decide) "customer",
   ((access_token_expiry ⟨30, 60⟩ ⟨some "c@x", none⟩ dbCust 0 1799
      ⟨true, ⟨some "c@x", none⟩, 1800⟩ "c@x" (by decide) rfl (by decide)).2
      (by decide)).2 custRow (by decide)⟩

/-- A customer row without a date of birth. -/
def custNoDob : Customer := ⟨1, "c@x", "pw", "C", "c", none, none, 0⟩

/-- A store holding exactly the customer without a date of birth. -/
def dbNoDob : Db := { emptyDb with customers := [custNoDob] }

/-- C8: for every verified customer, both premium handlers fail with HTTP
400 "Date of birth is missing for the customer" when the customer row has no
date of birth, and on success the reported age is
`today.year - dob.year - ((today.month, today.day) < (dob.month, dob.day))`
with the tuple comparison lexicographic. -/
theorem age_computation (ids : List Nat) (r : ℚ) (token : Token) (db : Db)
    (now : Nat) (today : SimpleDate) (email : String) (cid : Option Nat)
    (c : Customer)
    (hver : verify_user token db "customer" now = .ok (email, cid))
    (hfind : db.customers.find? (fun u => (some u.customer_id : Option Nat) == cid) = some c) :
    (c.date_of_birth = none →
      calculate_premium_by_policy_ids ids r token db now today =
        .error ⟨400, "Date of birth is missing for the customer"⟩ ∧
      calculate_remaining_premium ⟨r⟩ token db now today =
        .error ⟨400, "Date of birth is missing for the customer"⟩) ∧
    (∀ dob resp, c.date_of_birth = some dob →
      calculate_premium_by_policy_ids ids r token db now today = .ok resp →
      resp.age = today.year - dob.year -
        (if today.month < dob.month ∨ (today.month = dob.month ∧ today.day < dob.day)
         then 1 else 0)) := by
  constructor
  · intro hdob
    constructor
    · simp [calculate_premium_by_policy_ids, hver, hfind, hdob]
    · simp [calculate_remaining_premium, hver, hfind, hdob]
  · intro dob resp hdob hok
    simp only [calculate_premium_by_policy_ids, hver, hfind, hdob] at hok
    split at hok
    · simp at hok
    · split at hok
      · simp at hok
      · simp only [Except.ok.injEq] at hok
        subst hok
        simp [computeAge]

/-- Witness for C8: both handlers reject the fixture customer that has no
date of birth. -/
theorem age_computation_witness :
    calculate_premium_by_policy_ids [] 5 ⟨true, ⟨some "c@x", none⟩, 100⟩ dbNoDob 0
      ⟨2026, 10, 12⟩ = .error ⟨400, "Date of birth is missing for the customer"⟩ ∧
    calculate_remaining_premium ⟨5⟩ ⟨true, ⟨some "c@x", none⟩, 100⟩ dbNoDob 0
      ⟨2026, 10, 12⟩ = .error ⟨400, "Date of birth is missing for the customer"⟩ :=
  (age_computation [] 5 ⟨true, ⟨some "c@x", none⟩, 100⟩ dbNoDob 0 ⟨2026, 10, 12⟩
    "c@x" (some 1) custNoDob (by decide) (by decide)).1 rfl

/-- Counterexample for C5: `calculate_premium_by_policy_ids` called with an
EMPTY list of policy ids by a verified customer does NOT fail — it returns a
successful response with total premium 0 (the `NoPolicies` failure exists
only in `calculate_remaining_premium`). -/
theorem premium_empty_list_success :
    calculate_premium_by_policy_ids [] 5 ⟨true, ⟨some "c@x", none⟩, 100⟩ dbCust 0
      ⟨2026, 10, 12⟩ = .ok ⟨some 1, 26, 5, 0, []⟩ := by
  have hver : verify_user ⟨true, ⟨some "c@x", none⟩, 100⟩ dbCust "customer" 0 =
      .ok ("c@x", some 1) := by decide
  have hfind : dbCust.customers.find?
      (fun u => (some u.customer_id : Option Nat) == some 1) = some custRow := by decide
  have hpol : dbCust.policies = [] := rfl
  have hdob : custRow.date_of_birth = some ⟨2000, 1, 1⟩ := rfl
  simp only [calculate_premium_by_policy_ids, hver, hfind, hdob, hpol]
  norm_num [computeAge, premiumLoop, round2_zero]

/-- C5 (amended): over an empty list the two operations differ —
`calculate_remaining_premium` fails with 404 "No policies found for the
customer" when the customer has no policy assignments, while
`calculate_premium_by_policy_ids` on an empty id list succeeds with total
premium 0; both premium loops reject any listed policy whose base premium is
unset/zero, and on a list of policies with set premiums the loop returns the
sum of the per-policy premiums with one breakdown entry per policy. -/
theorem total_premium_empty_and_missing (r : ℚ) (token : Token) (db : Db)
    (now : Nat) (today : SimpleDate) (email : String) (cid : Option Nat)
    (c : Customer) (dob : SimpleDate)
    (hver : verify_user token db "customer" now = .ok (email, cid))
    (hfind : db.customers.find? (fun u => (some u.customer_id : Option Nat) == cid) = some c)
    (hdob : c.date_of_birth = some dob) :
    (joinedPolicies db cid = [] →
      calculate_remaining_premium ⟨r⟩ token db now today =
        .error ⟨404, "No policies found for the customer"⟩) ∧
    calculate_premium_by_policy_ids [] r token db now today =
      .ok ⟨cid, computeAge dob today, r, 0, []⟩ ∧
    (∀ (ids : List Nat) (ps : List Policy),
      db.policies.filter (fun p => ids.contains p.policy_id) = ps →
      ps.length = ids.length → (∃ p ∈ ps, p.premium = 0) →
      ∃ p, p ∈ ps ∧ p.premium = 0 ∧
        calculate_premium_by_policy_ids ids r token db now today =
          .error ⟨400, s!"Policy {p.policy_id} has no premium defined"⟩) ∧
    (∀ ps : List Policy, joinedPolicies db cid = ps →
      (∃ p ∈ ps, p.premium = 0) →
      ∃ p, p ∈ ps ∧ p.premium = 0 ∧
        calculate_remaining_premium ⟨r⟩ token db now today =
          .error ⟨400, s!"Policy {p.policy_id} has no premium defined"⟩) ∧
    (∀ (ids : List Nat) (ps : List Policy),
      db.policies.filter (fun p => ids.contains p.policy_id) = ps →
      ps.length = ids.length → (∀ p ∈ ps, p.premium ≠ 0) →
      calculate_premium_by_policy_ids ids r token db now today =
        .ok ⟨cid, computeAge dob today, r,
          round2 ((ps.map (fun p =>
            policyPremium p.premium (computeAge dob today) r)).sum),
          ps.map (fun p => ⟨p.policy_id, p.premium,
            round2 (policyPremium p.premium (computeAge dob today) r)⟩)⟩) ∧
    (∀ ps : List Policy, joinedPolicies db cid = ps → ps ≠ [] →
      (∀ p ∈ ps, p.premium ≠ 0) →
      calculate_remaining_premium ⟨r⟩ token db now today =
        .ok ⟨cid, computeAge dob today, ps.map (fun p => p.policy_id), r,
          round2 ((ps.map (fun p =>
            policyPremium p.premium (computeAge dob today) r)).sum)⟩) := by
  refine ⟨fun hjoin => ?_, ?_, fun ids ps hpol hlen hex => ?_,
    fun ps hjoin hex => ?_, fun ids ps hpol hlen hall => ?_,
    fun ps hjoin hne hall => ?_⟩
  · simp [calculate_remaining_premium, hver, hfind, hdob, hjoin]
  · simp [calculate_premium_by_policy_ids, hver, hfind, hdob, premiumLoop, round2_zero]
  · obtain ⟨p, hmem, hp0, hperr, _⟩ :=
      loops_first_missing ps (computeAge dob today) r hex
    refine ⟨p, hmem, hp0, ?_⟩
    simp only [calculate_premium_by_policy_ids, hver, hfind, hdob, hpol, hlen, hperr]
    simp
  · obtain ⟨p, hmem, hp0, _, hrerr⟩ :=
      loops_first_missing ps (computeAge dob today) r hex
    have hne : ps ≠ [] := by
      rintro rfl
      simp at hmem
    refine ⟨p, hmem, hp0, ?_⟩
    simp only [calculate_remaining_premium, hver, hfind, hdob, hjoin]
    simp [hne, hrerr]
  · obtain ⟨⟨t, ds⟩, hpr⟩ := premiumLoop_all_set ps (computeAge dob today) r hall
    obtain ⟨hsum, hds⟩ := premiumLoop_ok ps (computeAge dob today) r t ds hpr
    simp only [calculate_premium_by_policy_ids, hver, hfind, hdob, hpol, hlen, hpr]
    simp [hsum, hds]
  · obtain ⟨⟨t, ids'⟩, hpr⟩ := remainingLoop_all_set ps (computeAge dob today) r hall
    obtain ⟨hsum, hids⟩ := remainingLoop_ok ps (computeAge dob today) r t ids' hpr
    simp only [calculate_remaining_premium, hver, hfind, hdob, hjoin]
    simp [hne, hpr, hsum, hids]

/-- An admin row used by the fixtures. -/
def adminRow : Admin := ⟨1, "a@x", "hpw", "au", "A", 0⟩

/-- An agent row used by the fixtures. -/
def agentRow : InsuranceAgent := ⟨1, "g@x", "pw", "g", "G", 0⟩

/-- A customer managed by agent 1. -/
def custOfAgent : Customer := ⟨1, "c@x", "pw", "C", "c", some ⟨2000, 1, 1⟩, some 1, 0⟩

/-- A policy row used by the fixtures. -/
def polRow : Policy := ⟨1, 1, "P", 500, ⟨2024, 1, 1⟩, 10, ⟨2034, 1, 1⟩, 0⟩

/-- A store with an admin, agent 1, one customer of agent 1 and one policy. -/
def dbAgency : Db :=
  { emptyDb with
      admins := [adminRow]
      agents := [agentRow]
      customers := [custOfAgent]
      policies := [polRow] }

/-- An access token for the fixture admin. -/
def tokAdmin : Token := ⟨true, ⟨some "a@x", none⟩, 100⟩

/-- C4 (evaluation at the failing input): `calculate_commission` does return
404 "Insurance agent not found" for a missing agent and 404 "No customers
found for this agent" for an agent without customers, in that order — but as
soon as the agent exists and has a customer it fails with the catch-all HTTP
500 (the source evaluates `Policy.customer_id`, an attribute the `Policy`
model does not define, so `AttributeError` is raised before the policy
check), leaving the commission table unchanged: the `NoPoliciesForAgent`
error and the commission computation are unreachable. -/
theorem calculate_commission_dead_code :
    calculate_commission ⟨2, 10⟩ tokAdmin dbAgency 0 =
      (.error ⟨404, "Insurance agent not found"⟩, dbAgency) ∧
    calculate_commission ⟨1, 10⟩ tokAdmin { dbAgency with customers := [] } 0 =
      (.error ⟨404, "No customers found for this agent"⟩,
        { dbAgency with customers := [] }) ∧
    calculate_commission ⟨1, 10⟩ tokAdmin dbAgency 0 =
      (.error ⟨500, "Internal server error"⟩, dbAgency) := by
  refine ⟨by decide, by decide, by decide⟩

/-- C10: `make_payment` leaves the store unchanged on every input — the
`Payment` insert is dead code — and for a verified customer whose referenced
policy exists it fails with the catch-all HTTP 500 (the ownership check
reads `policy.customer_id`, an attribute the `Policy` model does not
define). -/
theorem make_payment_never_inserts :
    (∀ payment token db now, (make_payment payment token db now).2 = db) ∧
    (∀ payment token db now email cid p,
      verify_user token db "customer" now = .ok (email, cid) →
      db.policies.find? (fun q => q.policy_id == payment.policy_id) = some p →
      make_payment payment token db now =
        (.error ⟨500, "Internal server error"⟩, db)) := by
  constructor
  · intro payment token db now
    unfold make_payment
    cases verify_user token db "customer" now with
    | error e => rfl
    | ok pr =>
      cases db.policies.find? (fun q => q.policy_id == payment.policy_id) with
      | none => rfl
      | some p => rfl
  · intro payment token db now email cid p hver hfind
    simp [make_payment, hver, hfind]

/-- Witness for C10: the fixture customer's payment on the existing policy 1
returns the 500 and leaves the store unchanged. -/
theorem make_payment_never_inserts_witness :
    make_payment ⟨1, 100⟩ ⟨true, ⟨some "c@x", none⟩, 100⟩
      { dbCust with policies := [polRow] } 0 =
      (.error ⟨500, "Internal server error"⟩, { dbCust with policies := [polRow] }) :=
  make_payment_never_inserts.2 ⟨1, 100⟩ ⟨true, ⟨some "c@x", none⟩, 100⟩
    { dbCust with policies := [polRow] } 0 "c@x" (some 1) polRow
    (by decide) (by decide)

/-- The invariant of the `customer_policy` table: no two rows bind the same
(customer, policy) pair, i.e. each pair is assigned at most once. -/
def atMostOncePerPair (l : List CustomerPolicy) : Prop :=
  l.Pairwise (fun a b => ¬(a.customer_id = b.customer_id ∧ a.policy_id = b.policy_id))

instance (l : List CustomerPolicy) : Decidable (atMostOncePerPair l) := by
  unfold atMostOncePerPair
  infer_instance

/-- Appending the new assignment row preserves the invariant when the
duplicate check found no row for the pair. -/
lemma atMostOncePerPair_insert (l : List CustomerPolicy) (cid pid now : Nat)
    (hl : atMostOncePerPair l)
    (hnone : l.find? (fun cp => cp.customer_id == cid && cp.policy_id == pid) = none) :
    atMostOncePerPair (l ++ [⟨cid, pid, now⟩]) := by
  rw [atMostOncePerPair, List.pairwise_append]
  refine ⟨hl, List.pairwise_singleton _ _, ?_⟩
  intro a ha b hb
  have hb' : b = ⟨cid, pid, now⟩ := by simpa using hb
  subst hb'
  have := List.find?_eq_none.mp hnone a ha
  simpa using this

/-- Every path of `purchase_policy` preserves the invariant: the only path
that modifies the assignment table first checked that no row binds the
pair. -/
lemma purchase_preserves_atMostOnce (req : PurchaseReq) (token : Token)
    (db : Db) (now : Nat) (h : atMostOncePerPair db.customerPolicies) :
    atMostOncePerPair (purchase_policy req token db now).2.customerPolicies := by
  cases hv : verify_user token db "customer" now with
  | error e => simpa [purchase_policy, hv] using h
  | ok pr =>
    obtain ⟨em, ocid⟩ := pr
    cases ocid with
    | none => simpa [purchase_policy, hv] using h
    | some cid =>
      cases hf : db.policies.find? (fun q => q.policy_id == req.policy_id) with
      | none => simpa [purchase_policy, hv, hf] using h
      | some policy =>
        cases hh : db.customers.head? with
        | none => simpa [purchase_policy, hv, hf, hh] using h
        | some c =>
          cases hdup : db.customerPolicies.find?
              (fun cp => cp.customer_id == cid && cp.policy_id == req.policy_id) with
          | some cp => simpa [purchase_policy, hv, hf, hh, hdup] using h
          | none =>
            have hins := atMostOncePerPair_insert db.customerPolicies cid
              req.policy_id now h hdup
            simpa [purchase_policy, hv, hf, hh, hdup] using hins

/-- A sequence of purchase requests — each a request body, a token and a
request time — applied to the store in order. -/
def runPurchases (reqs : List (PurchaseReq × Token × Nat)) (db : Db) : Db :=
  reqs.foldl (fun d r => (purchase_policy r.1 r.2.1 d r.2.2).2) db

/-- The invariant survives any sequence of purchases. -/
lemma runPurchases_preserves (reqs : List (PurchaseReq × Token × Nat)) (db : Db)
    (h : atMostOncePerPair db.customerPolicies) :
    atMostOncePerPair (runPurchases reqs db).customerPolicies := by
  induction reqs generalizing db with
  | nil => exact h
  | cons r rs ih =>
    exact ih _ (purchase_preserves_atMostOnce r.1 r.2.1 db r.2.2 h)

/-- C6: purchasing a policy that is already assigned to the requesting
customer fails with the duplicate-assignment error, HTTP 400 "Policy already
purchased by the customer", and leaves the store unchanged; a single
purchase preserves the at-most-one-row-per-pair invariant of the assignment
table, and hence so does any sequence of purchase operations. -/
theorem purchase_policy_no_duplicates :
    (∀ (req : PurchaseReq) (token : Token) (db : Db) (now : Nat)
      (email : String) (cid : Nat) (p : Policy) (cp : CustomerPolicy),
      verify_user token db "customer" now = .ok (email, some cid) →
      db.policies.find? (fun q => q.policy_id == req.policy_id) = some p →
      db.customers ≠ [] →
      db.customerPolicies.find?
        (fun x => x.customer_id == cid && x.policy_id == req.policy_id) = some cp →
      purchase_policy req token db now =
        (.error ⟨400, "Policy already purchased by the customer"⟩, db)) ∧
    (∀ req token db now, atMostOncePerPair db.customerPolicies →
      atMostOncePerPair (purchase_policy req token db now).2.customerPolicies) ∧
    (∀ (reqs : List (PurchaseReq × Token × Nat)) (db : Db),
      atMostOncePerPair db.customerPolicies →
      atMostOncePerPair (runPurchases reqs db).customerPolicies) := by
  refine ⟨?_, fun req token db now h =>
    purchase_preserves_atMostOnce req token db now h,
    fun reqs db h => runPurchases_preserves reqs db h⟩
  intro req token db now email cid p cp hver hfind hne hdup
  cases hcs : db.customers with
  | nil => exact absurd hcs hne
  | cons c cs => simp [purchase_policy, hver, hfind, hcs, hdup]

/-- A customer with id 7. -/
def cust7 : Customer := ⟨7, "c7@x", "pw", "C7", "c7", some ⟨2000, 1, 1⟩, none, 0⟩

/-- A policy with id 3. -/
def polRow3 : Policy := ⟨3, 1, "P3", 500, ⟨2024, 1, 1⟩, 10, ⟨2034, 1, 1⟩, 0⟩

/-- A store where customer 7 already purchased policy 3. -/
def dbAssigned : Db :=
  { emptyDb with
      customers := [cust7]
      policies := [polRow3]
      customerPolicies := [⟨7, 3, 0⟩] }

/-- Witness for C6: re-purchasing the already assigned pair (7, 3) fails
with the duplicate error and the store is unchanged; running that purchase
as a sequence preserves the invariant. -/
theorem purchase_policy_no_duplicates_witness :
    purchase_policy ⟨3⟩ ⟨true, ⟨some "c7@x", none⟩, 100⟩ dbAssigned 0 =
      (.error ⟨400, "Policy already purchased by the customer"⟩, dbAssigned) ∧
    atMostOncePerPair
      (runPurchases [(⟨3⟩, ⟨true, ⟨some "c7@x", none⟩, 100⟩, 5)] dbAssigned).customerPolicies :=
  ⟨purchase_policy_no_duplicates.1 ⟨3⟩ ⟨true, ⟨some "c7@x", none⟩, 100⟩ dbAssigned 0
      "c7@x" 7 polRow3 ⟨7, 3, 0⟩ (by decide) (by decide) (by decide) (by decide),
   purchase_policy_no_duplicates.2.2 [(⟨3⟩, ⟨true, ⟨some "c7@x", none⟩, 100⟩, 5)]
      dbAssigned (by decide)⟩

/-- Witness for C5's amended statement: with customer 7's one assigned
policy (id 3, base premium 500, age 26, rate 5),
`calculate_remaining_premium` succeeds with the exact sum
`500 × 1.26 × 1.05 = 661.5` and the breakdown `[3]`; and without any
assignment (`dbCust`) it fails with the 404. -/
theorem total_premium_empty_and_missing_witness :
    calculate_remaining_premium ⟨5⟩ ⟨true, ⟨some "c7@x", none⟩, 100⟩ dbAssigned 0
      ⟨2026, 10, 12⟩ = .ok ⟨some 7, 26, [3], 5, 1323 / 2⟩ ∧
    calculate_remaining_premium ⟨5⟩ ⟨true, ⟨some "c@x", none⟩, 100⟩ dbCust 0
      ⟨2026, 10, 12⟩ = .error ⟨404, "No policies found for the customer"⟩ := by
  constructor
  · have h := (total_premium_empty_and_missing 5 ⟨true, ⟨some "c7@x", none⟩, 100⟩
      dbAssigned 0 ⟨2026, 10, 12⟩ "c7@x" (some 7) cust7 ⟨2000, 1, 1⟩ (by decide)
      (by decide) rfl).2.2.2.2.2 [polRow3] (by decide) (by decide) (by decide)
    rw [h]
    norm_num [computeAge, policyPremium, polRow3, round2]
  · exact (total_premium_empty_and_missing 5 ⟨true, ⟨some "c@x", none⟩, 100⟩ dbCust 0
      ⟨2026, 10, 12⟩ "c@x" (some 1) custRow ⟨2000, 1, 1⟩ (by decide) (by decide)
      rfl).1 (by decide)

/-- Counterexample for C7: `get_policies` performs no authentication — the
handler takes only `user_type`, `page`, `size` and the session, no token,
and never calls `verify_user` — so a request carrying no credential at all
receives the paginated policy data instead of an authentication error. -/
theorem get_policies_unauthenticated :
    get_policies "customer" 1 10 { emptyDb with policies := [polRow3] } =
      .ok (.customerPage 1 10 1 1 [polRow3.to_dict]) := by decide

/-- C7 (amended): listing policies requires no token and no role — only
that the `user_type` query parameter be `admin` or `customer` (case
insensitively), failing with HTTP 400 "Invalid user type" otherwise; the
only other possible failure is the 404 for an empty customer page, so no
401/403 authentication or authorization error can ever be produced. -/
theorem get_policies_requires_only_user_type :
    (∀ (user_type : String) (page size : Nat) (db : Db),
      pyLower user_type ≠ "admin" → pyLower user_type ≠ "customer" →
      get_policies user_type page size db =
        .error ⟨400, "Invalid user type. Allowed values: 'admin', 'customer'."⟩) ∧
    (∀ (user_type : String) (page size : Nat) (db : Db) (e : HttpError),
      get_policies user_type page size db = .error e →
      e.status = 400 ∨ e.status = 404) := by
  constructor
  · intro ut page size db h1 h2
    simp [get_policies, h1, h2]
  · intro ut page size db e h
    simp only [get_policies] at h
    split at h
    · simp only [Except.error.injEq] at h
      subst h
      left
      rfl
    · split at h
      · split at h
        · simp only [Except.error.injEq] at h
          subst h
          right
          rfl
        · simp at h
      · simp at h

/-- Witness for C7's amended statement: `user_type=employee` is rejected
with the 400 validation error. -/
theorem get_policies_requires_only_user_type_witness :
    get_policies "employee" 1 10 emptyDb =
      .error ⟨400, "Invalid user type. Allowed values: 'admin', 'customer'."⟩ :=
  get_policies_requires_only_user_type.1 "employee" 1 10 emptyDb
    (by decide) (by decide)

/-- `create_tokens` always succeeds: both kinds are literal, so the pair of
signed tokens with the configured expiries is returned. -/
lemma create_tokens_eq (cfg : Settings) (data : Claims) (now : Nat) :
    create_tokens cfg data now =
      .ok (⟨true, data, now + 60 * cfg.access_token_expire_minutes⟩,
        ⟨true, data, now + 60 * cfg.refresh_token_expire_minutes⟩) := rfl

/-- The keys of a serialized admin are its columns minus `password`. -/
lemma admin_to_dict_keys (a : Admin) : (Admin.to_dict a).map Prod.fst =
    ["admin_id", "email", "username", "full_name", "created_at"] := rfl

/-- The keys of a serialized employee are its columns minus `password`. -/
lemma employee_to_dict_keys (e : Employee) : (Employee.to_dict e).map Prod.fst =
    ["employee_id", "email", "username", "full_name", "created_at"] := rfl

/-- The keys of a serialized agent are its columns minus `password`. -/
lemma agent_to_dict_keys (g : InsuranceAgent) :
    (InsuranceAgent.to_dict g).map Prod.fst =
    ["agent_id", "email", "username", "full_name", "created_at"] := rfl

/-- The keys of a serialized customer are its columns minus `password`. -/
lemma customer_to_dict_keys (c : Customer) : (Customer.to_dict c).map Prod.fst =
    ["customer_id", "email", "full_name", "username", "date_of_birth",
     "agent_id", "created_at"] := rfl

/-- C9: every serialized principal — admin, employee, insurance agent or
customer, as returned in the `data` field of registration, login and the
admin create/update operations, all of which return `to_dict` — excludes
the `password` column, and no successful login response carries a
`password` key. -/
theorem serialized_principal_excludes_password :
    (∀ a : Admin, "password" ∉ (Admin.to_dict a).map Prod.fst) ∧
    (∀ e : Employee, "password" ∉ (Employee.to_dict e).map Prod.fst) ∧
    (∀ g : InsuranceAgent, "password" ∉ (InsuranceAgent.to_dict g).map Prod.fst) ∧
    (∀ c : Customer, "password" ∉ (Customer.to_dict c).map Prod.fst) ∧
    (∀ (cfg : Settings) (checkPw : String → String → Bool) (user_data : LoginReq)
      (user_type : String) (db : Db) (now : Nat) (resp : LoginResponse),
      login_user cfg checkPw user_data user_type db now = .ok resp →
      "password" ∉ resp.data.map Prod.fst) := by
  refine ⟨fun a => ?_, fun e => ?_, fun g => ?_, fun c => ?_, ?_⟩
  · rw [admin_to_dict_keys]; decide
  · rw [employee_to_dict_keys]; decide
  · rw [agent_to_dict_keys]; decide
  · rw [customer_to_dict_keys]; decide
  · intro cfg checkPw user_data user_type db now resp h
    simp only [login_user, create_tokens_eq] at h
    split at h
    · split at h
      · simp at h
      · split at h
        · simp only [Except.ok.injEq] at h
          subst h
          simp [admin_to_dict_keys]
        · simp at h
    · split at h
      · split at h
        · simp at h
        · split at h
          · simp only [Except.ok.injEq] at h
            subst h
            simp [employee_to_dict_keys]
          · simp at h
      · split at h
        · split at h
          · simp at h
          · split at h
            · simp only [Except.ok.injEq] at h
              subst h
              simp [customer_to_dict_keys]
            · simp at h
        · split at h
          · split at h
            · simp at h
            · split at h
              · simp only [Except.ok.injEq] at h
                subst h
                simp [agent_to_dict_keys]
              · simp at h
          · simp at h

/-- A store holding exactly the fixture admin. -/
def dbAdmin : Db := { emptyDb with admins := [adminRow] }

/-- Witness for C9: a successful concrete admin login returns the serialized
admin, and its keys carry no `password`. -/
theorem serialized_principal_excludes_password_witness :
    login_user ⟨30, 60⟩ (fun p hp => p == hp) ⟨"a@x", "hpw"⟩ "admin" dbAdmin 0 =
      .ok ⟨⟨true, ⟨some "a@x", some 1⟩, 1800⟩, ⟨true, ⟨some "a@x", some 1⟩, 3600⟩,
        Admin.to_dict adminRow⟩ ∧
    "password" ∉ (Admin.to_dict adminRow).map Prod.fst :=
  ⟨by decide,
   serialized_principal_excludes_password.2.2.2.2 ⟨30, 60⟩ (fun p hp => p == hp)
     ⟨"a@x", "hpw"⟩ "admin" dbAdmin 0
     ⟨⟨true, ⟨some "a@x", some 1⟩, 1800⟩, ⟨true, ⟨some "a@x", some 1⟩, 3600⟩,
       Admin.to_dict adminRow⟩ (by decide)⟩

end EInsurance
